import Mathlib

/-!
Verification of the smerb dashboard backend (src/dashboard/backend/main.py)
against its natural-language specification.

The file shallowly embeds the aggregation-cache engine and the asynchronous
export pipeline: daily aggregation (compute_participant_stats), the cache
refresh and cache-backed read (refresh_dashboard_cache / get_overall_status),
the safety-alert cache (refresh_safety_alert_cache / get_safety_alerts),
and the export job machinery (run_background_export, cancel_export_job,
download_screenshots_concurrent).

Machine integers are modelled as Nat/Int.  Python float arithmetic in the
compliance formula `int((total_checkins / (days_count * 3)) * 100)` is
modelled as exact truncated (floor) division on naturals; for the count
magnitudes the program stores (far below 2^40) double-precision evaluation
of that expression truncates to the same integer as the exact rational.
-/

namespace Smerb

/-- Two-digit zero padding of a natural number, as strftime does. -/
def pad2 (n : Nat) : String :=
  if n < 10 then "0" ++ toString n else toString n

/-- Four-digit zero padding of a natural number, as strftime does for years. -/
def pad4 (n : Nat) : String :=
  if n < 10 then "000" ++ toString n
  else if n < 100 then "00" ++ toString n
  else if n < 1000 then "0" ++ toString n
  else toString n

/-- Civil date from days since the Unix epoch (proleptic Gregorian calendar,
the standard days-to-civil algorithm, as used by Python's datetime). -/
def civilFromDays (z0 : Int) : Int × Int × Int :=
  let z := z0 + 719468
  let era := Int.fdiv z 146097
  let doe := z - era * 146097
  let yoe := Int.fdiv (doe - Int.fdiv doe 1460 + Int.fdiv doe 36524 - Int.fdiv doe 146096) 365
  let y := yoe + era * 400
  let doy := doe - (365 * yoe + Int.fdiv yoe 4 - Int.fdiv yoe 100)
  let mp := Int.fdiv (5 * doy + 2) 153
  let d := doy - Int.fdiv (153 * mp + 2) 5 + 1
  let m := mp + (if mp < 10 then 3 else -9)
  (y + (if m ≤ 2 then 1 else 0), m, d)

/-- Days since the Unix epoch from a civil date (inverse of civilFromDays). -/
def daysFromCivil (y0 m d : Int) : Int :=
  let y := y0 - (if m ≤ 2 then 1 else 0)
  let era := Int.fdiv y 400
  let yoe := y - era * 400
  let mp := m + (if m > 2 then -3 else 9)
  let doy := Int.fdiv (153 * mp + 2) 5 + d - 1
  let doe := yoe * 365 + Int.fdiv yoe 4 - Int.fdiv yoe 100 + doy
  era * 146097 + doe - 719468

/-- Format an epoch-second instant as a YYYY-MM-DD date string, as
datetime.strftime("%Y-%m-%d") renders the corresponding civil date. -/
def fmtCivilDate (epochSec : Int) : String :=
  let days := Int.fdiv epochSec 86400
  let ymd := civilFromDays days
  pad4 ymd.1.toNat ++ "-" ++ pad2 ymd.2.1.toNat ++ "-" ++ pad2 ymd.2.2.toNat

/-- Containment of one character list inside another (substring test),
mirroring Python's `in` operator on strings. -/
def listContains (needle : List Char) : List Char → Bool
  | [] => needle.isEmpty
  | c :: t => needle.isPrefixOf (c :: t) || listContains needle t

/-- Substring test on strings: strSubstr needle hay holds when needle occurs
contiguously inside hay. -/
def strSubstr (needle hay : String) : Bool :=
  listContains needle.toList hay.toList

/-- Lower-casing of a string (Python str.lower on ASCII data), written over
the character list so the kernel can evaluate it. -/
def lowerStr (s : String) : String :=
  ⟨s.data.map Char.toLower⟩

/-- Timestamp field as stored in the event log: either a native timestamp
object (exposing .timestamp(), modelled by its epoch seconds) or an
ISO-8601 string. -/
inductive Ts where
  | native (epochSec : Int)
  | iso (s : String)
deriving DecidableEq, Repr

/-- Python truthiness of an optional timestamp field: None and the empty
string are falsy, every other value in our model is truthy. -/
def tsTruthy : Option Ts → Bool
  | none => false
  | some (.iso s) => !s.isEmpty
  | some (.native _) => true

/-- Calendar-date key that compute_participant_stats derives from a
timestamp: native timestamps go through
datetime.fromtimestamp(t.timestamp()).strftime("%Y-%m-%d"), which renders
the date in the server's local timezone (tzOffsetSec seconds east of UTC);
ISO strings are sliced to their first ten characters. -/
def tsDate (tzOffsetSec : Int) : Ts → String
  | .native ep => fmtCivilDate (ep + tzOffsetSec)
  | .iso s => s.take 10

/-- Per-day counters built by compute_participant_stats: the defaultdict
value {"screenshots":0, "ocr_chars":0, "checkins":0, "safety_alerts":0,
"reddit":0, "twitter":0, "crisis_indicated":False}. -/
structure DayStats where
  screenshots : Nat
  ocr_chars : Nat
  checkins : Nat
  safety_alerts : Nat
  reddit : Nat
  twitter : Nat
  crisis_indicated : Bool
deriving DecidableEq, Repr

/-- The defaultdict default value. -/
def zeroDay : DayStats :=
  ⟨0, 0, 0, 0, 0, 0, false⟩

/-- Insertion-ordered date-keyed map, mirroring the Python defaultdict:
keys appear in first-touch order. -/
abbrev AggMap := List (String × DayStats)

/-- Mutate the bucket at key k (creating it with the default value when
absent), as daily_status[k] accesses do on the defaultdict. -/
def upsert (m : AggMap) (k : String) (f : DayStats → DayStats) : AggMap :=
  match m with
  | [] => [(k, f zeroDay)]
  | (k2, v) :: rest => if k2 = k then (k2, f v) :: rest else (k2, v) :: upsert rest k f

/-- Read the bucket at key d (first occurrence), with the defaultdict
default when the key is absent — daily_status.get(d, default). -/
def getDay : AggMap → String → DayStats
  | [], _ => zeroDay
  | (k, v) :: rest, d => if k = d then v else getDay rest d

/-- One activity-event document, with the fields compute_participant_stats
and the export pipeline read from it.  Option models a missing key; the
ocr field is some wc when the document's ocr sub-map is truthy and carries
wordCount wc (a truthy ocr map without wordCount reads as some 0), none
when the ocr map is missing or falsy. -/
structure Event where
  id : String
  timestamp : Option Ts
  createdAt : Option Ts
  eventType : Option String
  typ : Option String
  ocr : Option Nat
  platform : Option String
  screenshotUrl : Option String
  storagePath : Option String
deriving DecidableEq, Repr

/-- One safety-alert document.  compute_participant_stats only reads its
triggeredAt field; the code path handles native timestamp objects
(epoch seconds here), so that is what we model. -/
structure Alert where
  triggeredAt : Option Int
deriving DecidableEq, Repr

/-- JSON value inside a response map: the crisis check only distinguishes
strings from everything else. -/
inductive JVal where
  | jstr (s : String)
  | jother
deriving DecidableEq, Repr

/-- A responses payload: either a structured map (a missing key reads as
the empty map) or a JSON-encoded string still to be parsed. -/
inductive RespPayload where
  | rmap (m : List (String × JVal))
  | rstr (s : String)
deriving DecidableEq, Repr

/-- One check-in (ema_responses) document as the aggregator reads it. -/
structure Checkin where
  completedAt : Option Ts
  responses : RespPayload
deriving DecidableEq, Repr

/-- Shape of a json.loads call on a string payload: some assoc-list when the
string parses to a JSON object, none when parsing raises.  The aggregator is
parameterized by it, matching the external json library. -/
abbrev JsonParse := String → Option (List (String × JVal))

/-- Decoded response map: a structured map passes through; a string payload
is parsed, an unparsable string degrading to the empty map (the
try/except json.loads fallback). -/
def decodeResponses (jp : JsonParse) : RespPayload → List (String × JVal)
  | .rmap m => m
  | .rstr s => (jp s).getD []

/-- Python expression `event.get("timestamp") or event.get("createdAt")`:
the createdAt fallback fires when the timestamp field is falsy. -/
def capturedAt (e : Event) : Option Ts :=
  if tsTruthy e.timestamp then e.timestamp else e.createdAt

/-- Python expression `event.get("eventType", event.get("type", ""))`. -/
def resolvedType (e : Event) : String :=
  e.eventType.getD (e.typ.getD "")

/-- Counter updates a screenshot event applies to its day bucket:
screenshots += 1; ocr_chars += wordCount * 5 when the ocr map is truthy;
reddit += 1 when the lower-cased platform is "reddit", twitter += 1 when it
is "twitter" or "x". -/
def bumpScreenshot (e : Event) (d : DayStats) : DayStats :=
  let d1 := { d with screenshots := d.screenshots + 1 }
  let d2 := match e.ocr with
    | some wc => { d1 with ocr_chars := d1.ocr_chars + wc * 5 }
    | none => d1
  let platform := lowerStr (e.platform.getD "")
  if platform = "reddit" then { d2 with reddit := d2.reddit + 1 }
  else if platform = "twitter" || platform = "x" then { d2 with twitter := d2.twitter + 1 }
  else d2

/-- Fold step of the events loop of compute_participant_stats. -/
def procEvent (tz : Int) (m : AggMap) (e : Event) : AggMap :=
  match capturedAt e, tsTruthy (capturedAt e) with
  | some ts, true =>
    let date := tsDate tz ts
    let et := resolvedType e
    if et = "screenshot" then upsert m date (bumpScreenshot e)
    else if et = "checkin" then
      upsert m date (fun d => { d with checkins := d.checkins + 1 })
    else m
  | _, _ => m

/-- Fold step of the safety-alerts loop: a truthy triggeredAt bumps that
local-calendar-date bucket's safety_alerts counter. -/
def procAlert (tz : Int) (m : AggMap) (a : Alert) : AggMap :=
  match a.triggeredAt with
  | some ep =>
    upsert m (fmtCivilDate (ep + tz)) (fun d => { d with safety_alerts := d.safety_alerts + 1 })
  | none => m

/-- Crisis key test: the lower-cased key contains "crisis", "harm" or
"hurt" as a substring. -/
def crisisKey (k : String) : Bool :=
  strSubstr "crisis" (lowerStr k) || strSubstr "harm" (lowerStr k) || strSubstr "hurt" (lowerStr k)

/-- Whether any response pair is a crisis indicator: a string value whose
lower-casing is "yes" or "true" under a crisis key. -/
def crisisInResponses (rs : List (String × JVal)) : Bool :=
  rs.any (fun kv => match kv.2 with
    | .jstr v => (lowerStr v = "yes" || lowerStr v = "true") && crisisKey kv.1
    | .jother => false)

/-- Fold step of the ema_responses loop: a truthy completedAt bumps that
date's checkins counter, then the decoded responses may set the date's
crisis flag. -/
def procCheckin (tz : Int) (jp : JsonParse) (m : AggMap) (c : Checkin) : AggMap :=
  match c.completedAt, tsTruthy c.completedAt with
  | some ts, true =>
    let date := tsDate tz ts
    let m1 := upsert m date (fun d => { d with checkins := d.checkins + 1 })
    if crisisInResponses (decodeResponses jp c.responses) then
      upsert m1 date (fun d => { d with crisis_indicated := true })
    else m1
  | _, _ => m

/-- compute_participant_stats: fold the events, then the safety alerts, then
the check-ins into the day map.  The alert and check-in sub-queries are each
wrapped in try/except Exception: pass, so a failed sub-query (.error)
contributes nothing and aborts nothing else. -/
def computeParticipantStats (tz : Int) (jp : JsonParse) (events : List Event)
    (alerts : Except Unit (List Alert)) (checkins : Except Unit (List Checkin)) : AggMap :=
  let m1 := events.foldl (procEvent tz) []
  let m2 := match alerts with
    | .ok l => l.foldl (procAlert tz) m1
    | .error _ => m1
  match checkins with
  | .ok l => l.foldl (procCheckin tz jp) m2
  | .error _ => m2

/-- config.EMA_PROMPTS_PER_DAY: expected check-ins per day for compliance. -/
def EMA_PROMPTS_PER_DAY : Nat := 3

/-- Python expression
min(100, int((total_checkins / (days_count * EMA_PROMPTS_PER_DAY)) * 100)):
int() truncates the nonnegative quotient, modelled by Nat floor division. -/
def complianceExpr (tc dc : Nat) : Nat :=
  min 100 ((tc * 100) / (dc * EMA_PROMPTS_PER_DAY))

/-- One element of a cached participant's dailyStatus list. -/
structure DailyEntry where
  date : String
  stats : DayStats
deriving DecidableEq, Repr

/-- One participant's entry in the overall-status cache document. -/
structure ParticipantEntry where
  id : String
  dailyStatus : List DailyEntry
  weeklyScreenshots : Nat
  weeklyCheckins : Nat
  weeklyReddit : Nat
  weeklyTwitter : Nat
  overallCompliance : Nat
deriving DecidableEq, Repr

/-- The window-date list the refresh builds: the dates from the window start
on, one per day (the while loop from start_dt to end_dt inclusive). -/
def windowDates (startDay : Int) (n : Nat) : List String :=
  (List.range n).map (fun i => fmtCivilDate ((startDay + (i : Int)) * 86400))

/-- Per-participant body of refresh_dashboard_cache: totals summed over the
day map's values, days_count = max(1, number of dates in the map), a daily
list over the window dates with zero-filled gaps, and the compliance
expression. -/
def refreshEntry (pid : String) (window : List String) (m : AggMap) : ParticipantEntry :=
  let totalScreenshots := (m.map (fun kv => kv.2.screenshots)).sum
  let totalCheckins := (m.map (fun kv => kv.2.checkins)).sum
  let totalReddit := (m.map (fun kv => kv.2.reddit)).sum
  let totalTwitter := (m.map (fun kv => kv.2.twitter)).sum
  let daysCount := max 1 m.length
  { id := pid
    dailyStatus := window.map (fun ds => ⟨ds, getDay m ds⟩)
    weeklyScreenshots := totalScreenshots
    weeklyCheckins := totalCheckins
    weeklyReddit := totalReddit
    weeklyTwitter := totalTwitter
    overallCompliance := if daysCount > 0 then complianceExpr totalCheckins daysCount else 0 }

/-- Date filter of the cache-backed read:
start_date <= d.get("date", "") <= end_date (lexicographic on the
YYYY-MM-DD strings). -/
def inRange (s e : String) (d : DailyEntry) : Bool :=
  decide (s ≤ d.date) && decide (d.date ≤ e)

/-- Per-participant body of the cache-backed branch of get_overall_status:
filter the cached dailyStatus to the requested range, then recompute every
total and the compliance from the filtered entries only. -/
def cacheReadEntry (s e : String) (p : ParticipantEntry) : ParticipantEntry :=
  let filtered := p.dailyStatus.filter (inRange s e)
  let totalScreenshots := (filtered.map (fun d => d.stats.screenshots)).sum
  let totalCheckins := (filtered.map (fun d => d.stats.checkins)).sum
  let totalReddit := (filtered.map (fun d => d.stats.reddit)).sum
  let totalTwitter := (filtered.map (fun d => d.stats.twitter)).sum
  let daysCount := max 1 filtered.length
  { id := p.id
    dailyStatus := filtered
    weeklyScreenshots := totalScreenshots
    weeklyCheckins := totalCheckins
    weeklyReddit := totalReddit
    weeklyTwitter := totalTwitter
    overallCompliance := if daysCount > 0 then complianceExpr totalCheckins daysCount else 0 }

/-- One alert entry as fetch_live_safety_alerts builds it. -/
structure SafetyAlertView where
  participantId : String
  alertId : String
  triggeredAt : String
  sessionId : Option String
  responses : List (String × JVal)
  notificationSent : Bool
deriving DecidableEq, Repr

/-- The SAFETY_ALERT_CACHE dictionary. -/
structure SafetyCache where
  alerts : List SafetyAlertView
  updated_at : Option String
  status : String
  error : Option String
deriving DecidableEq, Repr

/-- Module-level initial value of SAFETY_ALERT_CACHE. -/
def initialSafetyCache : SafetyCache :=
  { alerts := [], updated_at := none, status := "never_run", error := none }

/-- SAFETY_ALERT_REFRESH_SECONDS. -/
def SAFETY_ALERT_REFRESH_SECONDS : Nat := 120

/-- One tick of refresh_safety_alert_cache: on a successful live fetch the
cache dict is updated with fresh alerts, updated_at, status ok and a cleared
error; on a failed fetch only status and error are updated. -/
def safetyTick (s : SafetyCache) (fetchResult : Except String (List SafetyAlertView))
    (nowIso : String) : SafetyCache :=
  match fetchResult with
  | .ok alerts => { alerts := alerts, updated_at := some nowIso, status := "ok", error := none }
  | .error msg => { s with status := "error", error := some msg }

/-- Response body of GET /api/safety-alerts. -/
structure SafetyAlertsResponse where
  alerts : List SafetyAlertView
  fromCache : Bool
  refreshedAt : Option String
  status : String
  error : Option String
  refreshIntervalSeconds : Nat
deriving DecidableEq, Repr

/-- get_safety_alerts: a never_run cache raises HTTP 503, otherwise the
snapshot is returned. -/
def getSafetyAlerts (s : SafetyCache) : Except Nat SafetyAlertsResponse :=
  if s.status = "never_run" then .error 503
  else .ok { alerts := s.alerts, fromCache := true, refreshedAt := s.updated_at,
             status := s.status, error := s.error,
             refreshIntervalSeconds := SAFETY_ALERT_REFRESH_SECONDS }

/-- Status values of an export job document. -/
inductive JobStatus where
  | pending
  | processing
  | completed
  | failed
  | cancelled
deriving DecidableEq, Repr

/-- cancel_export_job on a job with the given status: statuses other than
pending and processing are rejected with HTTP 400, otherwise the status is
updated to cancelled. -/
def cancelExportJob (s : JobStatus) : Except (Nat × JobStatus) JobStatus :=
  if s = .pending || s = .processing then .ok .cancelled
  else .error (400, s)

/-- Status writes run_background_export performs on the job document; each
is an unconditional job_ref.update that never reads the current status. -/
inductive JobWrite where
  | setProcessing
  | setFailedMsg (msg : String)
  | setCompleted
deriving DecidableEq, Repr

/-- Effect of one worker write on the stored status. -/
def applyWrite (s : JobStatus) (w : JobWrite) : JobStatus :=
  match w, s with
  | .setProcessing, _ => .processing
  | .setFailedMsg _, _ => .failed
  | .setCompleted, _ => .completed

/-- An operation on a job's status field: an explicit cancel request, or a
write from the job's worker. -/
inductive JobOp where
  | cancel
  | worker (w : JobWrite)
deriving DecidableEq, Repr

/-- One step of the job status field: a rejected cancel leaves the status
unchanged, a worker write overwrites it. -/
def jobStep (s : JobStatus) : JobOp → JobStatus
  | .cancel => match cancelExportJob s with
    | .ok s2 => s2
    | .error _ => s
  | .worker w => applyWrite s w

/-- Status after a sequence of operations. -/
def jobRun (s : JobStatus) (ops : List JobOp) : JobStatus :=
  ops.foldl jobStep s

/-- Time-of-day part of datetime.isoformat (seconds precision). -/
def fmtCivilTime (epochSec : Int) : String :=
  let s := (epochSec - 86400 * Int.fdiv epochSec 86400).toNat
  pad2 (s / 3600) ++ ":" ++ pad2 ((s % 3600) / 60) ++ ":" ++ pad2 (s % 60)

/-- datetime.fromtimestamp(ep).isoformat() in a timezone tz seconds east of
UTC, at seconds precision. -/
def fmtIsoLocal (tz ep : Int) : String :=
  fmtCivilDate (ep + tz) ++ "T" ++ fmtCivilTime (ep + tz)

/-- The timestamp normalization run_background_export applies to a
timestamp field before serializing it: a native timestamp becomes the
server-local isoformat string, a string passes through unchanged. -/
def tsToIsoLocal (tz : Int) : Ts → String
  | .native ep => fmtIsoLocal tz ep
  | .iso s => s

/-- Python truthiness of an optional string field. -/
def strTruthy : Option String → Bool
  | none => false
  | some s => !s.isEmpty

/-- One entry of the screenshot_infos work list handed to the concurrent
downloader.  Its timestamp is the already-ISO-normalized string of the
originating event (the event dict was rewritten before the append). -/
structure ScreenshotInfo where
  event_id : String
  url : String
  storagePath : Option String
  timestamp : Option String
deriving DecidableEq, Repr

/-- Outcome oracle for download_single_screenshot: none models a failed
fetch of any kind (timeout, HTTP error, storage error, falsy bytes) — the
function catches every exception and returns img_data None; some gives the
retrieved bytes (opaque id) and the inferred extension. -/
abbrev Fetch := ScreenshotInfo → Option (Nat × String)

/-- Character-for-character replacement; agrees with str.replace for a
single-character pattern and replacement, and kernel-evaluates. -/
def replChar (a b : Char) (s : String) : String :=
  ⟨s.data.map (fun c => if c = a then b else c)⟩

/-- Filename timestamp fragment: the iso string with colons replaced by
dashes and the T by an underscore, cut to 19 characters, or an img_
fallback from the event id. -/
def fnameTsPart (info : ScreenshotInfo) : String :=
  match info.timestamp with
  | some s =>
    if s.isEmpty then "img_" ++ info.event_id.take 8
    else ((replChar 'T' '_' (replChar ':' '-' s)).take 19)
  | none => "img_" ++ info.event_id.take 8

/-- download_screenshots_concurrent: every work item is submitted to the
pool; per-item failures only drop that item from the result list.  The
pool's as_completed yields a nondeterministic completion order; the claims
verified here are order-insensitive, so results are modelled in submission
order.  Returns (event_id, bytes, extension, timestamp fragment). -/
def downloadScreenshotsConcurrent (fetch : Fetch) (infos : List ScreenshotInfo) :
    List (String × Nat × String × String) :=
  infos.filterMap (fun i => (fetch i).map (fun bd => (i.event_id, bd.1, bd.2, fnameTsPart i)))

/-- External-world responses consumed by one run of run_background_export:
what the document store, the blob fetches and the archive upload return.
The emas and alerts sub-queries are try-wrapped in the code, so they carry
an Except; the upload oracle covers the whole upload-and-sign try block,
returning the signed URL on success. -/
structure ExportEnv where
  participantData : Option String
  eventsCheck : Bool
  emas : Except Unit (List Checkin)
  alerts : Except Unit (List Alert)
  events : List Event
  fetch : Fetch
  upload : Except String String

/-- Final job document fields written by run_background_export. -/
structure JobRecord where
  status : JobStatus
  error : Option String
  downloadUrl : Option String
  filename : Option String
  screenshotTotal : Option Nat
  screenshotProgress : Option Nat
deriving DecidableEq, Repr

/-- A zip archive member, identified by its entry name. -/
structure ArchiveEntry where
  name : String
deriving DecidableEq, Repr

/-- Output filename, from the level_names table and the optional window. -/
def exportFilename (pid : String) (level : Nat) (sd ed : Option String) : String :=
  let ln := if level = 1 then "meta" else if level = 2 then "ocr"
    else if level = 3 then "full" else "meta"
  let base := "socialscope_export_" ++ pid ++ "_L" ++ toString level ++ "_" ++ ln
  let base2 := match sd, ed with
    | some s, some e => base ++ "_" ++ s ++ "_to_" ++ e
    | _, _ => base
  base2 ++ ".zip"

/-- Screenshot work list collected at level 3: the events of the (already
window-filtered) query that carry a truthy screenshotUrl, with their
normalized timestamp strings. -/
def collectScreenshotInfos (tz : Int) (events : List Event) : List ScreenshotInfo :=
  events.filterMap (fun e =>
    if strTruthy e.screenshotUrl then
      some { event_id := e.id, url := e.screenshotUrl.getD "",
             storagePath := e.storagePath,
             timestamp := e.timestamp.map (tsToIsoLocal tz) }
    else none)

/-- Archive section: participant_metadata.json is written when the
participant document is truthy. -/
def exportMetaEntries (env : ExportEnv) : List ArchiveEntry :=
  if strTruthy env.participantData then [⟨"participant_metadata.json"⟩] else []

/-- Archive section: ema_responses.json is written when the try-wrapped
sub-query succeeded with a nonempty list. -/
def exportEmaEntries (env : ExportEnv) : List ArchiveEntry :=
  match env.emas with
  | .ok l => if l.isEmpty then [] else [⟨"ema_responses.json"⟩]
  | .error _ => []

/-- Archive section: safety_alerts.json, analogous to the EMA section. -/
def exportAlertEntries (env : ExportEnv) : List ArchiveEntry :=
  match env.alerts with
  | .ok l => if l.isEmpty then [] else [⟨"safety_alerts.json"⟩]
  | .error _ => []

/-- Archive section: events.json at level ≥ 2 when the queried events list
is nonempty. -/
def exportEventEntries (level : Nat) (env : ExportEnv) : List ArchiveEntry :=
  if level ≥ 2 && !env.events.isEmpty then [⟨"events.json"⟩] else []

/-- The screenshot work list: collected inside the level ≥ 2 block, only
when level ≥ 3. -/
def exportInfos (tz : Int) (level : Nat) (events : List Event) : List ScreenshotInfo :=
  if level ≥ 2 && level ≥ 3 then collectScreenshotInfos tz events else []

/-- Archive entry name of one downloaded screenshot tuple
(event_id, bytes, extension, timestamp fragment). -/
def shotEntryName (r : String × Nat × String × String) : ArchiveEntry :=
  ⟨"screenshots/" ++ (r.2.2.2 ++ "_" ++ r.1.take 8 ++ r.2.2.1)⟩

/-- run_background_export: builds the archive (metadata, ema_responses and
safety_alerts sections, events at level ≥ 2, concurrently fetched
screenshots at level ≥ 3), then uploads it; the job document ends completed
with the signed URL and filename only when the upload succeeded, and ends
failed with the error recorded when the participant is missing or the
upload raised.  Returns the final job document and the archive entries. -/
def runBackgroundExport (tz : Int) (pid : String) (level : Nat)
    (sd ed : Option String) (env : ExportEnv) : JobRecord × List ArchiveEntry :=
  if !strTruthy env.participantData && !env.eventsCheck then
    ({ status := .failed, error := some "Participant not found", downloadUrl := none,
       filename := none, screenshotTotal := none, screenshotProgress := none }, [])
  else
    let infos := exportInfos tz level env.events
    let haveShots := level ≥ 3 && !infos.isEmpty
    let downloaded := if haveShots then downloadScreenshotsConcurrent env.fetch infos else []
    let entries := exportMetaEntries env ++ exportEmaEntries env ++ exportAlertEntries env
      ++ exportEventEntries level env ++ downloaded.map shotEntryName
    let total := if haveShots then some infos.length else none
    match env.upload with
    | .error msg =>
      ({ status := .failed, error := some ("Storage upload failed: " ++ msg),
         downloadUrl := none, filename := none,
         screenshotTotal := total, screenshotProgress := total }, entries)
    | .ok url =>
      ({ status := .completed, error := none, downloadUrl := some url,
         filename := some (exportFilename pid level sd ed),
         screenshotTotal := total, screenshotProgress := total }, entries)

/-- Decimal parse of a nonempty all-digit string (kernel-evaluable
equivalent of str → int conversion). -/
def parseNat (s : String) : Option Nat :=
  if s.data.isEmpty then none
  else s.data.foldl (fun acc c =>
    match acc with
    | some a => if c.isDigit then some (a * 10 + (c.toNat - 48)) else none
    | none => none) (some 0)

/-- Specification-side reading of the "calendar date in UTC" of an
ISO-8601 timestamp string of the form YYYY-MM-DDTHH:MM:SS followed by an
empty suffix, Z, or a numeric offset ±HH:MM: the date of the denoted
instant after converting to UTC.  Written from the spec's words, for
comparison with the code's tsDate. -/
def specUtcDateOfIso (s : String) : Option String := do
  let y ← parseNat (s.take 4)
  guard ((s.drop 4).take 1 = "-")
  let mo ← parseNat ((s.drop 5).take 2)
  guard ((s.drop 7).take 1 = "-")
  let d ← parseNat ((s.drop 8).take 2)
  guard ((s.drop 10).take 1 = "T")
  let h ← parseNat ((s.drop 11).take 2)
  guard ((s.drop 13).take 1 = ":")
  let mi ← parseNat ((s.drop 14).take 2)
  guard ((s.drop 16).take 1 = ":")
  let sec ← parseNat ((s.drop 17).take 2)
  let rest := s.drop 19
  let offSec : Int ←
    if rest = "" || rest = "Z" then pure 0
    else do
      let sign : Int ← if rest.take 1 = "+" then pure 1
        else if rest.take 1 = "-" then pure (-1) else none
      let oh ← parseNat ((rest.drop 1).take 2)
      guard ((rest.drop 3).take 1 = ":")
      let om ← parseNat ((rest.drop 4).take 2)
      guard (rest.drop 6 = "")
      pure (sign * ((oh : Int) * 3600 + (om : Int) * 60))
  let epoch := daysFromCivil (y : Int) (mo : Int) (d : Int) * 86400
    + (h : Int) * 3600 + (mi : Int) * 60 + (sec : Int) - offSec
  pure (fmtCivilDate epoch)

/-- Specification-side compliance formula:
clamp(0, 100, round(100 × total_checkins / (days × expected_per_day))) with
round-to-nearest (half rounding up) and expected_per_day = 3.  Written from
the spec's words, for comparison with the code's complianceExpr. -/
def specRoundCompliance (tc dc : Nat) : Nat :=
  min 100 ((200 * tc + 3 * dc) / (6 * dc))

/-- Event predicate of the C10 decomposition: a usable-timestamp activity
event of resolved type checkin whose derived date is d. -/
def isCheckinEventOn (tz : Int) (d : String) (e : Event) : Bool :=
  match capturedAt e, tsTruthy (capturedAt e) with
  | some ts, true => decide (resolvedType e = "checkin") && decide (tsDate tz ts = d)
  | _, _ => false

/-- Check-in-record predicate of the C10 decomposition: a truthy
completedAt whose derived date is d. -/
def isCheckinRecordOn (tz : Int) (d : String) (c : Checkin) : Bool :=
  match c.completedAt, tsTruthy c.completedAt with
  | some ts, true => decide (tsDate tz ts = d)
  | _, _ => false

/-- Boolean prefix test on strings, via the underlying character lists. -/
def strStartsWith (p s : String) : Bool :=
  p.toList.isPrefixOf s.toList

/-- Reading through an upsert: the touched key sees the update applied to
its old value, every other key is untouched. -/
theorem getDay_upsert (m : AggMap) (k d : String) (f : DayStats → DayStats) :
    getDay (upsert m k f) d = if d = k then f (getDay m d) else getDay m d := by
  induction m with
  | nil =>
    by_cases h : d = k
    · subst h; simp [upsert, getDay]
    · have h2 : ¬(k = d) := fun h3 => h h3.symm
      simp [upsert, getDay, h, h2]
  | cons kv rest ih =>
    obtain ⟨k2, v⟩ := kv
    by_cases h2 : k2 = k
    · subst h2
      by_cases h : d = k2
      · subst h; simp [upsert, getDay]
      · have h3 : ¬(k2 = d) := fun h4 => h h4.symm
        simp [upsert, getDay, h, h3]
    · by_cases h3 : k2 = d
      · subst h3
        simp [upsert, getDay, h2]
      · simp [upsert, getDay, h2, h3, ih]

/-- A screenshot's bucket update leaves the checkins counter alone. -/
theorem bumpScreenshot_checkins (e : Event) (ds : DayStats) :
    (bumpScreenshot e ds).checkins = ds.checkins := by
  unfold bumpScreenshot
  cases e.ocr <;> dsimp only
  all_goals split
  all_goals try rfl
  all_goals split <;> rfl

/-- Checkins delta of one step of the events loop. -/
theorem procEvent_checkins (tz : Int) (m : AggMap) (e : Event) (d : String) :
    (getDay (procEvent tz m e) d).checkins
      = (getDay m d).checkins + (if isCheckinEventOn tz d e then 1 else 0) := by
  unfold procEvent isCheckinEventOn
  cases hc : capturedAt e with
  | none => simp [hc]
  | some ts =>
    cases ht : tsTruthy (some ts) with
    | false => simp [hc, ht]
    | true =>
      simp only [hc, ht]
      by_cases h1 : resolvedType e = "screenshot"
      · have h2 : ¬(resolvedType e = "checkin") := by simp [h1]
        simp [h1, h2, getDay_upsert]
        split <;> simp [bumpScreenshot_checkins]
      · by_cases h2 : resolvedType e = "checkin"
        · by_cases h3 : d = tsDate tz ts
          · subst h3
            simp [h1, h2, getDay_upsert]
          · have h4 : ¬(tsDate tz ts = d) := fun h5 => h3 h5.symm
            simp [h1, h2, h3, h4, getDay_upsert]
        · simp [h1, h2]

/-- The safety-alerts loop never touches the checkins counter. -/
theorem procAlert_checkins (tz : Int) (m : AggMap) (a : Alert) (d : String) :
    (getDay (procAlert tz m a) d).checkins = (getDay m d).checkins := by
  unfold procAlert
  cases a.triggeredAt with
  | none => rfl
  | some ep =>
    simp only [getDay_upsert]
    split <;> rfl

/-- Checkins delta of one step of the ema_responses loop. -/
theorem procCheckin_checkins (tz : Int) (jp : JsonParse) (m : AggMap) (c : Checkin) (d : String) :
    (getDay (procCheckin tz jp m c) d).checkins
      = (getDay m d).checkins + (if isCheckinRecordOn tz d c then 1 else 0) := by
  unfold procCheckin isCheckinRecordOn
  cases hc : c.completedAt with
  | none => simp [hc]
  | some ts =>
    cases ht : tsTruthy (some ts) with
    | false => simp [hc, ht]
    | true =>
      simp only [hc, ht]
      by_cases h3 : d = tsDate tz ts
      · subst h3
        split <;> simp [getDay_upsert]
      · have h4 : ¬(tsDate tz ts = d) := fun h5 => h3 h5.symm
        split <;> simp [getDay_upsert, h3, h4]

/-- Folding a step function with an additive effect on a measure g. -/
theorem foldl_add_measure {α β : Type} (f : β → α → β) (g : β → Nat) (h : α → Nat)
    (hf : ∀ m x, g (f m x) = g m + h x) :
    ∀ (l : List α) (m : β), g (l.foldl f m) = g m + (l.map h).sum := by
  intro l
  induction l with
  | nil => intro m; simp
  | cons x xs ih =>
    intro m
    simp only [List.foldl_cons, List.map_cons, List.sum_cons]
    rw [ih, hf]
    omega

/-- Summing a 0/1 indicator counts the elements passing the filter. -/
theorem sum_indicator_eq_length_filter {α : Type} (p : α → Bool) (l : List α) :
    (l.map (fun x => if p x then 1 else 0)).sum = (l.filter p).length := by
  induction l with
  | nil => rfl
  | cons x xs ih =>
    by_cases h : p x
    · simp [h, ih, List.filter_cons]
      omega
    · simp [h, ih, List.filter_cons]

/-- A screenshot event built on the given ISO date string, used by concrete
evaluations. -/
def cexScrEvt (d : String) : Event :=
  { id := "e" ++ d, timestamp := some (.iso (d ++ "T10:00:00")), createdAt := none,
    eventType := some "screenshot", typ := none, ocr := none, platform := none,
    screenshotUrl := none, storagePath := none }

/-- A check-in record completed on the given ISO date string. -/
def cexCknRec (d : String) : Checkin :=
  { completedAt := some (.iso (d ++ "T12:00:00")), responses := .rmap [] }

/-- A json.loads oracle on which every string fails to parse. -/
def noJson : JsonParse := fun _ => none

/-- Aggregation of two screenshot days and one check-in: 1 check-in over 2
days with data. -/
def cexAggMap : AggMap :=
  computeParticipantStats 0 noJson [cexScrEvt "2025-01-01", cexScrEvt "2025-01-02"]
    (.ok []) (.ok [cexCknRec "2025-01-01"])

/-- C1, counterexample: a participant with 1 check-in over 2 days with data
has raw compliance 100/6 = 16.67; the spec formula
clamp(0,100,round(100 × 1 / (2 × 3))) gives 17, but the cache refresh
reports 16 — the code truncates with int(), it does not round to nearest. -/
theorem compliance_truncates_counterexample :
    (refreshEntry "p1" (windowDates 20089 15) cexAggMap).weeklyCheckins = 1
    ∧ cexAggMap.length = 2
    ∧ (refreshEntry "p1" (windowDates 20089 15) cexAggMap).overallCompliance = 16
    ∧ specRoundCompliance 1 2 = 17
    ∧ (16 : Nat) ≠ 17 := by
  refine ⟨by decide, by decide, by decide, by decide, by decide⟩

/-- C1, amended: the compliance a cache refresh or a cache-backed read
reports equals min(100, floor(100 × total_checkins / (days × 3))) over that
response's totals and day count — clamped to [0, 100] (it is a Nat, hence
never below 0, and the min bounds it by 100), with truncating division, not
round-to-nearest. -/
theorem compliance_clamped_floor (pid : String) (window : List String) (m : AggMap)
    (s e : String) (p : ParticipantEntry) :
    (refreshEntry pid window m).overallCompliance
        = min 100 (((m.map (fun kv => kv.2.checkins)).sum * 100)
            / (max 1 m.length * EMA_PROMPTS_PER_DAY))
    ∧ (refreshEntry pid window m).overallCompliance ≤ 100
    ∧ (cacheReadEntry s e p).overallCompliance
        = min 100 ((((p.dailyStatus.filter (inRange s e)).map (fun d => d.stats.checkins)).sum * 100)
            / (max 1 (p.dailyStatus.filter (inRange s e)).length * EMA_PROMPTS_PER_DAY))
    ∧ (cacheReadEntry s e p).overallCompliance ≤ 100 := by
  have h1 : 0 < max 1 m.length := lt_of_lt_of_le one_pos (le_max_left _ _)
  have h2 : 0 < max 1 (p.dailyStatus.filter (inRange s e)).length :=
    lt_of_lt_of_le one_pos (le_max_left _ _)
  refine ⟨?_, ?_, ?_, ?_⟩
  · simp [refreshEntry, complianceExpr, h1]
  · simp only [refreshEntry, complianceExpr]
    rw [if_pos h1]
    exact min_le_left _ _
  · simp [cacheReadEntry, complianceExpr, h2]
  · simp only [cacheReadEntry, complianceExpr]
    rw [if_pos h2]
    exact min_le_left _ _

/-- C2, counterexample: a job cancelled while processing is later
overwritten by the worker's unconditional terminal write — the stored
status moves from cancelled to completed (or failed), contradicting "once a
job is cancelled no later write moves it to completed or failed". -/
theorem cancelled_job_overwritten_counterexample :
    jobRun .pending [.worker .setProcessing, .cancel] = .cancelled
    ∧ jobRun .pending [.worker .setProcessing, .cancel, .worker .setCompleted] = .completed
    ∧ jobRun .pending [.worker .setProcessing, .cancel, .worker (.setFailedMsg "boom")]
        = .failed := by
  refine ⟨rfl, rfl, rfl⟩

/-- C2, amended: the cancel endpoint succeeds exactly from pending or
processing and then yields cancelled; from completed or failed (or
cancelled) it is rejected with HTTP 400 and the status is unchanged; but
the worker's writes never re-check the stored status, so a cancelled job
can subsequently be overwritten to processing, completed or failed. -/
theorem cancel_state_machine (s : JobStatus) :
    ((∃ s2, cancelExportJob s = .ok s2) ↔ (s = .pending ∨ s = .processing))
    ∧ (∀ s2, cancelExportJob s = .ok s2 → s2 = .cancelled)
    ∧ ((s = .completed ∨ s = .failed ∨ s = .cancelled) → cancelExportJob s = .error (400, s)) := by
  cases s <;> simp [cancelExportJob]

/-- C2, witness: cancelling a processing job succeeds into cancelled;
cancelling a completed job is rejected with HTTP 400. -/
theorem cancel_state_machine_witness :
    cancelExportJob .processing = .ok .cancelled
    ∧ cancelExportJob .completed = .error (400, .completed) := by
  have h := cancel_state_machine .processing
  have h2 := cancel_state_machine .completed
  refine ⟨?_, h2.2.2 (Or.inl rfl)⟩
  rcases h.1.mpr (Or.inr rfl) with ⟨s2, hs⟩
  rw [hs, h.2.1 s2 hs]

/-- C4: the cache-backed read returns exactly the snapshot's daily entries
whose dates lie in the requested range, and every returned total and the
compliance are recomputed from the filtered entries alone. -/
theorem cache_read_filters_and_recomputes (s e : String) (p : ParticipantEntry) :
    (cacheReadEntry s e p).dailyStatus = p.dailyStatus.filter (inRange s e)
    ∧ (∀ d, d ∈ (cacheReadEntry s e p).dailyStatus
        ↔ (d ∈ p.dailyStatus ∧ s ≤ d.date ∧ d.date ≤ e))
    ∧ (cacheReadEntry s e p).weeklyScreenshots
        = ((cacheReadEntry s e p).dailyStatus.map (fun d => d.stats.screenshots)).sum
    ∧ (cacheReadEntry s e p).weeklyCheckins
        = ((cacheReadEntry s e p).dailyStatus.map (fun d => d.stats.checkins)).sum
    ∧ (cacheReadEntry s e p).weeklyReddit
        = ((cacheReadEntry s e p).dailyStatus.map (fun d => d.stats.reddit)).sum
    ∧ (cacheReadEntry s e p).weeklyTwitter
        = ((cacheReadEntry s e p).dailyStatus.map (fun d => d.stats.twitter)).sum
    ∧ (cacheReadEntry s e p).overallCompliance
        = complianceExpr (cacheReadEntry s e p).weeklyCheckins
            (max 1 (cacheReadEntry s e p).dailyStatus.length) := by
  have h2 : 0 < max 1 (p.dailyStatus.filter (inRange s e)).length :=
    lt_of_lt_of_le one_pos (le_max_left _ _)
  refine ⟨rfl, ?_, rfl, rfl, rfl, rfl, ?_⟩
  · intro d
    simp [cacheReadEntry, List.mem_filter, inRange]
  · simp only [cacheReadEntry]
    rw [if_pos h2]

/-- C8: a failed safety-alert refresh tick changes only the status and
error fields; the previously cached alerts and updated_at are retained
unchanged. -/
theorem safety_tick_failure_frame (s : SafetyCache) (msg nowIso : String) :
    (safetyTick s (.error msg) nowIso).alerts = s.alerts
    ∧ (safetyTick s (.error msg) nowIso).updated_at = s.updated_at
    ∧ (safetyTick s (.error msg) nowIso).status = "error"
    ∧ (safetyTick s (.error msg) nowIso).error = some msg :=
  ⟨rfl, rfl, rfl, rfl⟩

/-- C9: a safety-alerts read before any tick has completed yields the
distinct HTTP 503 not-ready failure, not an empty list; after one
successful tick the same read returns the snapshot with status ok and
updated_at set. -/
theorem safety_read_not_ready (alerts : List SafetyAlertView) (nowIso : String) :
    getSafetyAlerts initialSafetyCache = .error 503
    ∧ getSafetyAlerts (safetyTick initialSafetyCache (.ok alerts) nowIso)
        = .ok { alerts := alerts, fromCache := true, refreshedAt := some nowIso,
                status := "ok", error := none,
                refreshIntervalSeconds := SAFETY_ALERT_REFRESH_SECONDS } := by
  exact ⟨rfl, rfl⟩

/-- C5: a check-in whose response payload is a string json.loads rejects is
still counted — its date's checkins counter is incremented by one — while
the payload degrades to the empty response set, so the day's crisis flag is
exactly what it was before, and no other bucket changes. -/
theorem unparsable_responses_safe (tz : Int) (jp : JsonParse) (m : AggMap) (c : Checkin)
    (ts : Ts) (s : String) (h1 : c.completedAt = some ts) (h2 : tsTruthy c.completedAt = true)
    (h3 : c.responses = .rstr s) (h4 : jp s = none) :
    (getDay (procCheckin tz jp m c) (tsDate tz ts)).checkins
        = (getDay m (tsDate tz ts)).checkins + 1
    ∧ (getDay (procCheckin tz jp m c) (tsDate tz ts)).crisis_indicated
        = (getDay m (tsDate tz ts)).crisis_indicated
    ∧ ∀ d2, d2 ≠ tsDate tz ts → getDay (procCheckin tz jp m c) d2 = getDay m d2 := by
  have htt : tsTruthy (some ts) = true := h1 ▸ h2
  have hcr : crisisInResponses (decodeResponses jp c.responses) = false := by
    rw [h3]
    simp [decodeResponses, h4, crisisInResponses]
  unfold procCheckin
  simp only [h1, htt, hcr, if_false, Bool.false_eq_true, getDay_upsert, if_pos rfl]
  refine ⟨rfl, rfl, ?_⟩
  intro d2 hd2
  rw [if_neg hd2]

/-- A check-in whose responses field is a non-JSON string. -/
def cexBadCheckin : Checkin :=
  { completedAt := some (.iso "2025-02-03T09:00:00"), responses := .rstr "not json at all" }

/-- C5, witness: the unparsable-payload check-in on 2025-02-03 yields
checkins 1 and no crisis flag on that date. -/
theorem unparsable_responses_safe_witness :
    (getDay (procCheckin 0 noJson [] cexBadCheckin) "2025-02-03").checkins = 1
    ∧ (getDay (procCheckin 0 noJson [] cexBadCheckin) "2025-02-03").crisis_indicated = false := by
  have h := unparsable_responses_safe 0 noJson [] cexBadCheckin
    (.iso "2025-02-03T09:00:00") "not json at all" rfl rfl rfl rfl
  exact ⟨h.1, h.2.1⟩

/-- C10: in the full aggregation, a date's checkins counter is the number
of activity events of resolved type checkin dated to that day plus the
number of check-in records completed that day — a check-in present in both
sources is counted twice. -/
theorem checkins_double_counted (tz : Int) (jp : JsonParse) (events : List Event)
    (alerts : List Alert) (checkins : List Checkin) (d : String) :
    (getDay (computeParticipantStats tz jp events (.ok alerts) (.ok checkins)) d).checkins
      = (events.filter (isCheckinEventOn tz d)).length
        + (checkins.filter (isCheckinRecordOn tz d)).length := by
  unfold computeParticipantStats
  have he := foldl_add_measure (procEvent tz) (fun m => (getDay m d).checkins)
      (fun e => if isCheckinEventOn tz d e then 1 else 0)
      (fun m e => procEvent_checkins tz m e d) events []
  have ha := foldl_add_measure (procAlert tz) (fun m => (getDay m d).checkins)
      (fun _ => 0) (fun m a => by simpa using procAlert_checkins tz m a d) alerts
      (events.foldl (procEvent tz) [])
  have hc := foldl_add_measure (procCheckin tz jp) (fun m => (getDay m d).checkins)
      (fun c => if isCheckinRecordOn tz d c then 1 else 0)
      (fun m c => procCheckin_checkins tz jp m c d) checkins
      (alerts.foldl (procAlert tz) (events.foldl (procEvent tz) []))
  simp only [List.map_const, List.sum_replicate, smul_eq_mul, Nat.mul_zero, Nat.add_zero] at ha
  rw [hc, ha, he]
  simp [getDay, zeroDay, sum_indicator_eq_length_filter]

/-- An activity event of type checkin whose ISO timestamp carries a -05:00
offset: the instant belongs to 2025-01-02 UTC, but its string prefix is
2025-01-01. -/
def cexOffsetEvt : Event :=
  { id := "evOff", timestamp := some (.iso "2025-01-01T23:30:00-05:00"), createdAt := none,
    eventType := some "checkin", typ := none, ocr := none, platform := none,
    screenshotUrl := none, storagePath := none }

/-- C3, counterexample: an event with parseable ISO-8601 timestamp
2025-01-01T23:30:00-05:00 denotes an instant whose UTC calendar date is
2025-01-02, yet the aggregation buckets it (even on a UTC-localtime server,
tz offset 0) under 2025-01-01, the first ten characters of the string — not
under its UTC calendar date. -/
theorem iso_offset_not_utc_counterexample :
    specUtcDateOfIso "2025-01-01T23:30:00-05:00" = some "2025-01-02"
    ∧ (getDay (computeParticipantStats 0 noJson [cexOffsetEvt] (.ok []) (.ok []))
        "2025-01-01").checkins = 1
    ∧ getDay (computeParticipantStats 0 noJson [cexOffsetEvt] (.ok []) (.ok []))
        "2025-01-02" = zeroDay := by
  refine ⟨by decide, by decide, by decide⟩

/-- C3, amended: an event with no usable timestamp is skipped without
effect; an event with a usable timestamp touches no bucket other than the
single one keyed by the code's derived date — the first ten characters of
an ISO string (the date in the string's own offset), or the server-local
calendar date of a native timestamp — and a screenshot- or checkin-typed
event updates exactly that bucket. -/
theorem event_single_bucket (tz : Int) (m : AggMap) (e : Event) :
    (tsTruthy (capturedAt e) = false → procEvent tz m e = m)
    ∧ (∀ ts, capturedAt e = some ts → tsTruthy (capturedAt e) = true →
        ((∀ d, d ≠ tsDate tz ts → getDay (procEvent tz m e) d = getDay m d)
         ∧ (resolvedType e = "screenshot" →
             getDay (procEvent tz m e) (tsDate tz ts)
               = bumpScreenshot e (getDay m (tsDate tz ts)))
         ∧ (resolvedType e = "checkin" →
             getDay (procEvent tz m e) (tsDate tz ts)
               = { getDay m (tsDate tz ts) with
                   checkins := (getDay m (tsDate tz ts)).checkins + 1 }))) := by
  constructor
  · intro hf
    unfold procEvent
    cases hc : capturedAt e
    · simp [hc]
    · rw [hc] at hf
      simp [hc, hf]
  · intro ts hc htt
    rw [hc] at htt
    have hred : procEvent tz m e =
        (if resolvedType e = "screenshot" then upsert m (tsDate tz ts) (bumpScreenshot e)
         else if resolvedType e = "checkin" then
           upsert m (tsDate tz ts) (fun d => { d with checkins := d.checkins + 1 })
         else m) := by
      unfold procEvent
      simp only [hc, htt]
    refine ⟨?_, ?_, ?_⟩
    · intro d hd
      rw [hred]
      split
      · rw [getDay_upsert, if_neg hd]
      · split
        · rw [getDay_upsert, if_neg hd]
        · rfl
    · intro hty
      rw [hred, if_pos hty, getDay_upsert, if_pos rfl]
    · intro hty
      have hty2 : ¬(resolvedType e = "screenshot") := by simp [hty]
      rw [hred, if_neg hty2, if_pos hty, getDay_upsert, if_pos rfl]

/-- C3, witness: the offset-ISO checkin event increments exactly its
prefix-date bucket and leaves a different date's bucket untouched. -/
theorem event_single_bucket_witness :
    getDay (procEvent 0 [] cexOffsetEvt) "2025-01-05" = getDay ([] : AggMap) "2025-01-05"
    ∧ getDay (procEvent 0 [] cexOffsetEvt) "2025-01-01"
        = { getDay ([] : AggMap) "2025-01-01" with
            checkins := (getDay ([] : AggMap) "2025-01-01").checkins + 1 } := by
  have h := (event_single_bucket 0 [] cexOffsetEvt).2
    (.iso "2025-01-01T23:30:00-05:00") rfl rfl
  exact ⟨h.1 "2025-01-05" (by decide), h.2.2 rfl⟩

/-- A string is a prefix of itself followed by anything. -/
theorem strStartsWith_append (p rest : String) : strStartsWith p (p ++ rest) = true := by
  simp [strStartsWith, String.toList]

/-- Mapping the successful results of an oracle keeps one output per
success: its length is the number of inputs the oracle accepts. -/
theorem length_filterMap_oracle {α β γ : Type} (f : α → Option β) (g : α → β → γ)
    (l : List α) :
    (l.filterMap (fun i => (f i).map (g i))).length
      = (l.filter (fun i => (f i).isSome)).length := by
  induction l with
  | nil => rfl
  | cons x xs ih => cases h : f x <;> simp [h, ih]

/-- None of the fixed json sections is filed under the screenshots/
prefix. -/
theorem filter_shots_fixed_sections (env : ExportEnv) (level : Nat) :
    (exportMetaEntries env).filter (fun a => strStartsWith "screenshots/" a.name) = []
    ∧ (exportEmaEntries env).filter (fun a => strStartsWith "screenshots/" a.name) = []
    ∧ (exportAlertEntries env).filter (fun a => strStartsWith "screenshots/" a.name) = []
    ∧ (exportEventEntries level env).filter (fun a => strStartsWith "screenshots/" a.name) = [] := by
  refine ⟨?_, ?_, ?_, ?_⟩
  · unfold exportMetaEntries
    split
    · decide
    · rfl
  · cases h : env.emas with
    | error u => simp [exportEmaEntries, h]
    | ok l =>
      simp only [exportEmaEntries, h]
      split
      · rfl
      · decide
  · cases h : env.alerts with
    | error u => simp [exportAlertEntries, h]
    | ok l =>
      simp only [exportAlertEntries, h]
      split
      · rfl
      · decide
  · unfold exportEventEntries
    split
    · decide
    · rfl

/-- Every screenshot entry name carries the screenshots/ prefix. -/
theorem filter_shots_shot_entries (downloaded : List (String × Nat × String × String)) :
    (downloaded.map shotEntryName).filter (fun a => strStartsWith "screenshots/" a.name)
      = downloaded.map shotEntryName := by
  rw [List.filter_eq_self]
  intro a ha
  rcases List.mem_map.mp ha with ⟨r, _, rfl⟩
  show strStartsWith "screenshots/" ("screenshots/" ++ (r.2.2.2 ++ "_" ++ r.1.take 8 ++ r.2.2.1)) = true
  exact strStartsWith_append "screenshots/" (r.2.2.2 ++ "_" ++ r.1.take 8 ++ r.2.2.1)

/-- C6: when the durable upload of the finished archive fails, the job ends
failed with the upload error recorded on the job record and no download
handle; conversely a job can only end completed when the upload
succeeded — a local archive without a durable upload is never reported
completed. -/
theorem upload_failure_fails_job (tz : Int) (pid : String) (level : Nat)
    (sd ed : Option String) (env : ExportEnv)
    (h1 : strTruthy env.participantData = true ∨ env.eventsCheck = true) :
    (∀ msg, env.upload = .error msg →
      (runBackgroundExport tz pid level sd ed env).1.status = .failed
      ∧ (runBackgroundExport tz pid level sd ed env).1.error
          = some ("Storage upload failed: " ++ msg)
      ∧ (runBackgroundExport tz pid level sd ed env).1.downloadUrl = none)
    ∧ ((runBackgroundExport tz pid level sd ed env).1.status = .completed
        → ∃ url, env.upload = .ok url) := by
  have hcond : (!strTruthy env.participantData && !env.eventsCheck) = false := by
    rcases h1 with h | h <;> simp [h]
  constructor
  · intro msg hmsg
    unfold runBackgroundExport
    rw [hcond, hmsg]
    exact ⟨rfl, rfl, rfl⟩
  · intro hcompl
    cases hu : env.upload with
    | ok url => exact ⟨url, rfl⟩
    | error msg =>
      unfold runBackgroundExport at hcompl
      rw [hcond, hu] at hcompl
      have hbad : JobStatus.failed = JobStatus.completed := hcompl
      exact JobStatus.noConfusion hbad

/-- Environment of the C6 witness: everything present, upload failing. -/
def envUploadFail : ExportEnv :=
  { participantData := some "meta", eventsCheck := true, emas := .ok [], alerts := .ok [],
    events := [], fetch := fun _ => none, upload := .error "boom" }

/-- C6, witness: with a failing upload the job ends failed and its error
field carries the upload error. -/
theorem upload_failure_fails_job_witness :
    (runBackgroundExport 0 "p1" 1 none none envUploadFail).1.status = .failed
    ∧ (runBackgroundExport 0 "p1" 1 none none envUploadFail).1.error
        = some "Storage upload failed: boom"
    ∧ (runBackgroundExport 0 "p1" 1 none none envUploadFail).1.downloadUrl = none := by
  have h := upload_failure_fails_job 0 "p1" 1 none none envUploadFail (Or.inl rfl)
  exact (h.1 "boom" rfl)

/-- C7: with a working upload, a level-3 export always completes; every
attachment whose fetch fails is only omitted — the archive holds exactly
one screenshots/ entry per successful fetch — and when any attachments were
collected the job's counters record all of them as attempted. -/
theorem failed_fetches_tolerated (tz : Int) (pid : String) (sd ed : Option String)
    (env : ExportEnv) (url : String)
    (h1 : strTruthy env.participantData = true ∨ env.eventsCheck = true)
    (h2 : env.upload = .ok url) :
    (runBackgroundExport tz pid 3 sd ed env).1.status = .completed
    ∧ ((runBackgroundExport tz pid 3 sd ed env).2.filter
          (fun a => strStartsWith "screenshots/" a.name)).length
        = ((collectScreenshotInfos tz env.events).filter
            (fun i => (env.fetch i).isSome)).length
    ∧ ((collectScreenshotInfos tz env.events).isEmpty = false →
        (runBackgroundExport tz pid 3 sd ed env).1.screenshotTotal
            = some (collectScreenshotInfos tz env.events).length
        ∧ (runBackgroundExport tz pid 3 sd ed env).1.screenshotProgress
            = some (collectScreenshotInfos tz env.events).length) := by
  have hcond : (!strTruthy env.participantData && !env.eventsCheck) = false := by
    rcases h1 with h | h <;> simp [h]
  have hinfos : exportInfos tz 3 env.events = collectScreenshotInfos tz env.events := by
    unfold exportInfos
    rfl
  unfold runBackgroundExport
  rw [hcond, h2, hinfos]
  simp only [Bool.false_eq_true, if_false]
  refine ⟨by trivial, ?_, ?_⟩
  · rcases filter_shots_fixed_sections env 3 with ⟨hm, he, ha, hv⟩
    cases hne : (collectScreenshotInfos tz env.events).isEmpty with
    | true =>
      have hnil := List.isEmpty_iff.mp hne
      simp [hnil, List.filter_append, hm, he, ha, hv]
    | false =>
      simp only [hne, Bool.not_false, Bool.and_true, List.filter_append, hm, he, ha, hv,
        List.nil_append, List.append_nil]
      simp only [ge_iff_le, Nat.le_refl, decide_true_eq_true, if_true,
        filter_shots_shot_entries, List.length_map, downloadScreenshotsConcurrent]
      exact length_filterMap_oracle env.fetch
        (fun i bd => (i.event_id, bd.1, bd.2, fnameTsPart i)) _
  · intro hne
    simp only [hne, Bool.not_false, Bool.and_true, ge_iff_le, Nat.le_refl,
      decide_true_eq_true, if_true]
    constructor <;> trivial

/-- One screenshot-bearing event of the C7 scenario. -/
def cexShotEvt (n : Nat) : Event :=
  { id := "ev" ++ toString n, timestamp := some (.iso "2025-01-03T10:00:00"), createdAt := none,
    eventType := some "screenshot", typ := none, ocr := none, platform := none,
    screenshotUrl := some "https://firebasestorage.example/o/shot", storagePath := none }

/-- Fetch oracle of the C7 scenario: 5 of the 20 attachments are
unretrievable, the rest return bytes with a jpg extension. -/
def cexFetch : Fetch := fun i =>
  if i.event_id ∈ (["ev0", "ev1", "ev2", "ev3", "ev4"] : List String) then none
  else some (7, ".jpg")

/-- C7 scenario environment: 20 attachment references, 5 unreachable,
upload succeeding. -/
def cexEnv20 : ExportEnv :=
  { participantData := some "meta", eventsCheck := true, emas := .ok [], alerts := .ok [],
    events := (List.range 20).map cexShotEvt, fetch := cexFetch, upload := .ok "signed-url" }

/-- C7, witness: the 20-reference, 5-failure level-3 export completes with
exactly 15 screenshots/ entries and counters recording all 20 attempted. -/
theorem failed_fetches_tolerated_witness :
    (runBackgroundExport 0 "p1" 3 none none cexEnv20).1.status = .completed
    ∧ ((runBackgroundExport 0 "p1" 3 none none cexEnv20).2.filter
          (fun a => strStartsWith "screenshots/" a.name)).length = 15
    ∧ (runBackgroundExport 0 "p1" 3 none none cexEnv20).1.screenshotTotal = some 20
    ∧ (runBackgroundExport 0 "p1" 3 none none cexEnv20).1.screenshotProgress = some 20 := by
  have h := failed_fetches_tolerated 0 "p1" none none cexEnv20 "signed-url" (Or.inl rfl) rfl
  have hne : (collectScreenshotInfos 0 cexEnv20.events).isEmpty = false := by decide
  have h20 : (collectScreenshotInfos 0 cexEnv20.events).length = 20 := by decide
  have h15 : ((collectScreenshotInfos 0 cexEnv20.events).filter
      (fun i => (cexEnv20.fetch i).isSome)).length = 15 := by decide
  refine ⟨h.1, ?_, ?_, ?_⟩
  · exact h.2.1.trans h15
  · exact ((h.2.2 hne).1).trans (by rw [h20])
  · exact ((h.2.2 hne).2).trans (by rw [h20])

end Smerb
